import Mathlib

/-! # Verification of the wasm dynamic-module study (guest allocator, adapters, host drivers)

Shallow embedding of the repository `rust-wasm-dynamic-module-study`:

* `src/wasm-module1/src/lib.rs` and `src/wasm-module2/src/lib.rs` share the same
  allocator code (`MEMORY_AREAS`, `wasm_allocate`, `wasm_deallocate`,
  `validate_pointer`, `allocate`); the embedding below models it once.
* Guest linear memory is modelled through the allocation table itself: every
  buffer ever allocated is registered as `(handle, Buffer)` where `handle` is
  the address of the buffer in linear memory.  The allocator hands out fresh,
  non-overlapping, nonzero addresses (`next` strictly grows past the end of
  each new buffer), which abstracts the Rust allocator on the wasm32 target.
* Bytes are `Nat`s (< 256 in every real run); machine addresses on the
  wasm32-wasi target are below `2^32`, so handles are plain `Nat`s and the
  `as u32` casts in the source are identities for every reachable state.
-/

set_option autoImplicit false

namespace WasmStudy

/-- A guest buffer as registered in `MEMORY_AREAS`: the recorded size and the
underlying bytes (`ManuallyDrop<Box<[u8]>>`). -/
structure Buffer where
  size : Nat
  data : List Nat
deriving Repr, DecidableEq

/-- The per-instance guest state: the `MEMORY_AREAS` table (handle ↦ buffer)
plus the abstract allocator cursor handing out fresh addresses. -/
structure GuestState where
  table : List (Nat × Buffer)
  next : Nat
deriving Repr, DecidableEq

/-- Lookup, as `HashMap::get`: first entry with the given key. -/
def lookupTable : List (Nat × Buffer) → Nat → Option Buffer
  | [], _ => none
  | p :: t, k => if p.1 = k then some p.2 else lookupTable t k

/-- Removal, as `HashMap::remove`: drop every entry with the given key (keys are unique in
a `HashMap`, so this is exactly removal of the entry). -/
def eraseKey : List (Nat × Buffer) → Nat → List (Nat × Buffer)
  | [], _ => []
  | p :: t, k => if p.1 = k then eraseKey t k else p :: eraseKey t k

/-- Function `allocate` (lib.rs): registers a buffer of the given recorded size and
contents at a fresh address and returns the address.  The fresh address is
`next`; the cursor then jumps strictly past the new buffer, which models that
distinct live Rust allocations never overlap and are never null. -/
def allocate (st : GuestState) (size : Nat) (data : List Nat) : Nat × GuestState :=
  (st.next, ⟨(st.next, ⟨size, data⟩) :: st.table, st.next + size + 1⟩)

/-- Function `wasm_allocate` (lib.rs): a zero-initialized buffer of the requested size. -/
def wasm_allocate (st : GuestState) (size : Nat) : Nat × GuestState :=
  allocate st size (List.replicate size 0)

/-- Function `wasm_deallocate` (lib.rs): remove and free the entry if present (returns
`Success = 0`); otherwise return `ErrorMemmoryNotAllocated = -1` and leave the
table untouched. -/
def wasm_deallocate (st : GuestState) (ptr : Nat) : Int × GuestState :=
  match lookupTable st.table ptr with
  | some _ => (0, ⟨eraseKey st.table ptr, st.next⟩)
  | none => (-1, st)

/-- Function `validate_pointer` (lib.rs): the recorded size of the handle, `0` if the
handle is not registered. -/
def validate_pointer (st : GuestState) (ptr : Nat) : Nat :=
  match lookupTable st.table ptr with
  | some b => b.size
  | none => 0

/-- Function `validate_pointer` as a state transformer: the source only takes a shared
borrow of `MEMORY_AREAS` (`borrow()`, `get`), so the state component is
returned unchanged. -/
def validateRun (st : GuestState) (ptr : Nat) : Nat × GuestState :=
  (validate_pointer st ptr, st)

/-- Well-formed guest states: the allocator cursor is nonzero and strictly past
every registered buffer (so new handles are fresh, nonzero and non-overlapping),
and the byte content of every buffer has exactly its recorded size. -/
def WF (st : GuestState) : Prop :=
  0 < st.next ∧
    ∀ p ∈ st.table, p.1 + p.2.size < st.next ∧ 0 < p.1 ∧ p.2.data.length = p.2.size

instance (st : GuestState) : Decidable (WF st) := by
  unfold WF; infer_instance

/-! ## Flat linear-memory reads and writes

The host (`wasmtime` `memory.read` / `memory.write`) and the guest
(`slice::from_raw_parts`, the `CStr` scan) address linear memory by flat
offsets.  In the model a read or write resolves to the unique registered
buffer whose address range contains the requested range; a range landing in
unregistered memory is refused (`none`), which abstracts the out-of-bounds
trap / undefined behaviour of the real flat memory. -/

/-- Does buffer entry `p` contain the byte range `[addr, addr+len)`? -/
def inRange (p : Nat × Buffer) (addr len : Nat) : Bool :=
  decide (p.1 ≤ addr) && decide (addr + len ≤ p.1 + p.2.size)

/-- Read `len` bytes of linear memory at `addr`. -/
def readMem (st : GuestState) (addr len : Nat) : Option (List Nat) :=
  match st.table.find? (fun p => inRange p addr len) with
  | some p => some ((p.2.data.drop (addr - p.1)).take len)
  | none => none

/-- Splice `bs` into `d` at position `i`. -/
def overwrite (d : List Nat) (i : Nat) (bs : List Nat) : List Nat :=
  d.take i ++ bs ++ d.drop (i + bs.length)

/-- Write `bs` to linear memory at `addr`: update the buffer containing the
range; a write into unregistered memory is a no-op in the model (the drivers
only ever write into buffers they just allocated). -/
def writeMem (st : GuestState) (addr : Nat) (bs : List Nat) : GuestState :=
  { st with
    table := st.table.map fun p =>
      if inRange p addr bs.length then
        (p.1, ⟨p.2.size, overwrite p.2.data (addr - p.1) bs⟩)
      else p }

/-! ## Little-endian words (`usize::to_le_bytes` / `u32::from_le_bytes`)

The modules are built for `wasm32-wasi` (see the module paths in
`wasm-app/src/main.rs`), so `usize` is 4 bytes wide. -/

/-- Pointer width in bytes on the wasm32 target (`usize::BITS / 8`). -/
def usizeBytes : Nat := 4

/-- Encoding `v.to_le_bytes()` truncated/zero-extended to `w` bytes. -/
def toLe : Nat → Nat → List Nat
  | 0, _ => []
  | w + 1, v => (v % 256) :: toLe w (v / 256)

/-- Decoding `from_le_bytes`. -/
def fromLe : List Nat → Nat
  | [] => 0
  | b :: t => b + 256 * fromLe t

/-! ## The hello-world formatting (module 1), at the byte level

`format_hello_world` returns `format!("Hello World, {name}!")`.  Rust strings
are UTF-8 byte sequences and every conversion on the round-trip paths is
byte-preserving (`from_utf8_unchecked`, `CStr::to_str` on valid UTF-8,
`from_utf8_lossy` on valid UTF-8), so strings are modelled as their byte
lists. -/

/-- The bytes of `"Hello World, "`. -/
def helloHead : List Nat := [72, 101, 108, 108, 111, 32, 87, 111, 114, 108, 100, 44, 32]

/-- The bytes of `format!("Hello World, {name}!")`. -/
def helloBytes (name : List Nat) : List Nat := helloHead ++ name ++ [33]

/-! ## Module 1, pattern (a): `wasm_memory_c_format_hello_world` -/

/-- The number of bytes up to and including the first zero byte
(`CStr::from_ptr` + `to_bytes_with_nul().len()`); `none` if the buffer holds
no zero byte, in which case the real `CStr` scan runs past the allocation. -/
def firstNulLen : List Nat → Option Nat
  | [] => none
  | b :: t => if b = 0 then some 1 else (firstNulLen t).map (· + 1)

/-- Is `c` a UTF-8 continuation byte (`0x80`–`0xBF`)? -/
def utf8Cont (c : Nat) : Bool :=
  decide (0x80 ≤ c) && decide (c ≤ 0xBF)

/-- Validity of a byte sequence as UTF-8, as checked by the Rust standard
library (`str::from_utf8` / `run_utf8_validation`, which `CStr::to_str`
calls): ASCII lead bytes stand alone; `0xC2`–`0xDF` take one continuation;
`0xE0`–`0xEF` take two, with the first restricted for `0xE0` (no overlong
forms) and `0xED` (no surrogates); `0xF0`–`0xF4` take three, with the first
restricted for `0xF0` (no overlong forms) and `0xF4` (maximum `U+10FFFF`);
`0x80`–`0xC1` and `0xF5`–`0xFF` are never valid lead bytes. -/
def isValidUtf8 : List Nat → Bool
  | [] => true
  | b :: rest =>
    if b < 0x80 then isValidUtf8 rest
    else if b < 0xC2 then false
    else if b < 0xE0 then
      match rest with
      | c1 :: rest2 => utf8Cont c1 && isValidUtf8 rest2
      | [] => false
    else if b < 0xF0 then
      match rest with
      | c1 :: c2 :: rest2 =>
        (if b = 0xE0 then decide (0xA0 ≤ c1) && decide (c1 ≤ 0xBF)
         else if b = 0xED then decide (0x80 ≤ c1) && decide (c1 ≤ 0x9F)
         else utf8Cont c1) && utf8Cont c2 && isValidUtf8 rest2
      | _ => false
    else if b < 0xF5 then
      match rest with
      | c1 :: c2 :: c3 :: rest2 =>
        (if b = 0xF0 then decide (0x90 ≤ c1) && decide (c1 ≤ 0xBF)
         else if b = 0xF4 then decide (0x80 ≤ c1) && decide (c1 ≤ 0x8F)
         else utf8Cont c1) && utf8Cont c2 && utf8Cont c3 && isValidUtf8 rest2
      | _ => false
    else false

/-- Adapter `wasm_memory_c_format_hello_world` (module 1, lines 66–92): validate the
handle, scan the C string, reject (null = `0`) when the nul-terminated length
differs from the recorded size; then `c_str.to_str().unwrap()` (line 78)
panics — a wasm trap, modelled as `Except.error` — when the bytes before the
terminator are not valid UTF-8, and otherwise the nul-terminated greeting is
allocated and its handle returned.  `Except.error` also models the scan
leaving the allocation (no terminator inside the buffer). -/
def wasm_memory_c_format_hello_world (st : GuestState) (name : Nat) :
    Except String (Nat × GuestState) :=
  let expected_size := validate_pointer st name
  if expected_size = 0 then .ok (0, st)
  else
    let buf := match lookupTable st.table name with
      | some b => b.data
      | none => []
    match firstNulLen buf with
    | none => .error "CStr scan past the allocation"
    | some cl =>
      if cl ≠ expected_size then .ok (0, st)
      else
        let name_bytes := buf.take (cl - 1)
        if isValidUtf8 name_bytes then
          let result_cstring := helloBytes name_bytes ++ [0]
          let (return_ptr, st1) := allocate st result_cstring.length result_cstring
          .ok (return_ptr, st1)
        else .error "invalid utf-8 sequence"

/-! ## Module 1, pattern (b): `wasm_memory_rust_format_hello_world`

The third component of the result is the list of input slices the adapter
fetched from linear memory (`slice::from_raw_parts`): it is empty exactly when
the adapter returned before reading any input. -/

/-- Adapter `wasm_memory_rust_format_hello_world` (module 1, lines 100–140). -/
def wasm_memory_rust_format_hello_world (st : GuestState) (offset length : Nat) :
    Nat × GuestState × List (List Nat) :=
  let expected_size_param := validate_pointer st offset
  if expected_size_param = 0 ∨ expected_size_param ≠ length then (0, st, [])
  else
    let input := (readMem st offset length).getD []
    let result_string := helloBytes input
    let (string_ptr, st1) := allocate st result_string.length result_string
    let vec_meta := toLe usizeBytes string_ptr ++ toLe usizeBytes result_string.length
    let (str_meta_ptr, st2) := allocate st1 vec_meta.length vec_meta
    (str_meta_ptr, st2, [input])

/-! ## Module 2, pattern (c): the Arrow batch model

The Arrow IPC (de)serialization is the external `arrow` crate; the adapters
and drivers are parametrized over the codec (`dec` / `enc`).  Record batches
are modelled at the decoded level: the ordered field list of the schema, the
row count, and the column values.  The only struct type the program builds has
UTF-8 children, and the only `Float64` values are literals compared for
equality, so struct types carry primitive children and an `f64` value is
carried by its source literal. -/

/-- Primitive Arrow data types used by the program. -/
inductive ArrowPrimType where
  | utf8
  | uint64
  | float64
  | timestampSec (tz : Option String)
deriving Repr, DecidableEq

/-- Arrow data types used by the program: primitives and structs of primitive
fields (`(name, type, nullable)`). -/
inductive ArrowDataType where
  | prim (t : ArrowPrimType)
  | structT (fields : List (String × ArrowPrimType × Bool))
deriving Repr, DecidableEq

/-- A schema field: `Field::new(name, data_type, nullable)`. -/
structure ArrowFieldDef where
  name : String
  dtype : ArrowDataType
  nullable : Bool
deriving Repr, DecidableEq

/-- Arrow array values used by the program; a struct row holds its (all-UTF-8)
child values by field name. -/
inductive ArrowValue where
  | vUInt64 (n : Nat)
  | vUtf8 (s : String)
  | vTimestampSec (t : Int)
  | vFloat64 (lit : String)
  | vStructStr (fields : List (String × String))
deriving Repr, DecidableEq

/-- A decoded record batch: schema fields, row count, and per-column row
values. -/
structure ArrowBatchModel where
  fields : List ArrowFieldDef
  numRows : Nat
  columns : List (List ArrowValue)
deriving Repr, DecidableEq

/-- Accessor `schema().field(i)`; panics (error) when the index is out of bounds. -/
def fieldAt (b : ArrowBatchModel) (i : Nat) : Except String ArrowFieldDef :=
  match b.fields.get? i with
  | some f => .ok f
  | none => .error "field index out of bounds"

/-- Assertion `assert_eq!`: an assertion failure is a panic, which traps the wasm call. -/
def assertEq {α : Type} [DecidableEq α] (x y : α) : Except String Unit :=
  if x = y then .ok () else .error "assertion failed"

/-- Accessor `as_string_array(batch.column(c)).value(r)`: panics on a missing column, a
non-UTF-8 column (downcast failure), or a row out of bounds. -/
def stringValueAt (b : ArrowBatchModel) (c r : Nat) : Except String String :=
  match b.columns.get? c with
  | none => .error "column index out of bounds"
  | some col =>
    match col.get? r with
    | some (.vUtf8 s) => .ok s
    | some _ => .error "downcast to StringArray failed"
    | none => .error "row index out of bounds"

/-- Accessor `as_primitive_array::<UInt64Type>(batch.column(c)).value(r)`. -/
def uint64ValueAt (b : ArrowBatchModel) (c r : Nat) : Except String Nat :=
  match b.columns.get? c with
  | none => .error "column index out of bounds"
  | some col =>
    match col.get? r with
    | some (.vUInt64 n) => .ok n
    | some _ => .error "downcast to UInt64Array failed"
    | none => .error "row index out of bounds"

/-- Accessor `as_primitive_array::<TimestampSecondType>(batch.column(c)).value(r)`. -/
def timestampValueAt (b : ArrowBatchModel) (c r : Nat) : Except String Int :=
  match b.columns.get? c with
  | none => .error "column index out of bounds"
  | some col =>
    match col.get? r with
    | some (.vTimestampSec t) => .ok t
    | some _ => .error "downcast to TimestampSecondArray failed"
    | none => .error "row index out of bounds"

/-- Accessor `as_primitive_array::<Float64Type>(batch.column(c)).value(r)`, as the
source literal of the stored `f64`. -/
def float64ValueAt (b : ArrowBatchModel) (c r : Nat) : Except String String :=
  match b.columns.get? c with
  | none => .error "column index out of bounds"
  | some col =>
    match col.get? r with
    | some (.vFloat64 l) => .ok l
    | some _ => .error "downcast to Float64Array failed"
    | none => .error "row index out of bounds"

/-- Accessor `as_string_array(as_struct_array(batch.column(c)).column(ci)).value(r)`. -/
def structStringValueAt (b : ArrowBatchModel) (c ci r : Nat) : Except String String :=
  match b.columns.get? c with
  | none => .error "column index out of bounds"
  | some col =>
    match col.get? r with
    | some (.vStructStr fs) =>
      match fs.get? ci with
      | some f => .ok f.2
      | none => .error "struct child index out of bounds"
    | some _ => .error "downcast to StructArray failed"
    | none => .error "row index out of bounds"

/-- The `assert_eq!` chain over one decoded meta-data ("command") batch
(module 2, lines 105–128). -/
def checkMetaBatch (b : ArrowBatchModel) : Except String Unit := do
  let f0 ← fieldAt b 0
  assertEq f0.name "command"
  assertEq f0.dtype (.prim .utf8)
  let f1 ← fieldAt b 1
  assertEq f1.name "config"
  assertEq f1.dtype (.structT [("filename", .utf8, false)])
  assertEq b.numRows 1
  let first_row_command ← stringValueAt b 0 0
  assertEq first_row_command "test"
  let first_row_config_filename ← structStringValueAt b 1 0 0
  assertEq first_row_config_filename "test.txt"

/-- The `assert_eq!` chain over one decoded data batch
(module 2, lines 133–181).  `1641038400` is the unix timestamp of
`2022-01-01 12:00:00 UTC`. -/
def checkDataBatch (b : ArrowBatchModel) : Except String Unit := do
  let f0 ← fieldAt b 0
  assertEq f0.name "id"
  assertEq f0.dtype (.prim .uint64)
  let f1 ← fieldAt b 1
  assertEq f1.name "content"
  assertEq f1.dtype (.prim .utf8)
  let f2 ← fieldAt b 2
  assertEq f2.name "title"
  assertEq f2.dtype (.prim .utf8)
  let f3 ← fieldAt b 3
  assertEq f3.name "date"
  assertEq f3.dtype (.prim (.timestampSec (some "+00:00")))
  let f4 ← fieldAt b 4
  assertEq f4.name "score"
  assertEq f4.dtype (.prim .float64)
  assertEq b.numRows 1
  let first_row_id ← uint64ValueAt b 0 0
  assertEq first_row_id 1
  let first_row_content ← stringValueAt b 1 0
  assertEq first_row_content "this is a test"
  let first_row_title ← stringValueAt b 2 0
  assertEq first_row_title "test"
  let first_row_date ← timestampValueAt b 3 0
  assertEq first_row_date 1641038400
  let first_row_score ← float64ValueAt b 4 0
  assertEq first_row_score "1.123456"

/-- The `for item in stream_reader { ... }` loop: run the check on every
decoded batch; the first panic aborts. -/
def runChecks (f : ArrowBatchModel → Except String Unit) :
    List ArrowBatchModel → Except String Unit
  | [] => .ok ()
  | b :: t => do
    f b
    runChecks f t

/-- The result batch built by module 2 (lines 184–196):
`{id: [1], content: ["this is a test2"]}`. -/
def moduleResultBatch : ArrowBatchModel :=
  { fields := [⟨"id", .prim .uint64, false⟩, ⟨"content", .prim .utf8, false⟩]
    numRows := 1
    columns := [[.vUInt64 1], [.vUtf8 "this is a test2"]] }

/-- Adapter `wasm_memory_process_data_arrow` (module 2, lines 68–233), parametrized
over the Arrow IPC codec (`dec` for `StreamReader`, `enc` for `StreamWriter`).
`Except.error` models a panic (a wasm trap): a failed `unwrap` of the stream
reader or a failed `assert_eq!`.  The last component lists the input slices
fetched from linear memory before the adapter returned. -/
def wasm_memory_process_data_arrow
    (dec : List Nat → Except String (List ArrowBatchModel))
    (enc : ArrowBatchModel → List Nat)
    (st : GuestState) (meta_data_offset meta_data_size data_offset data_size : Nat) :
    Except String (Nat × GuestState × List (List Nat)) :=
  let expected_size_meta_data := validate_pointer st meta_data_offset
  if expected_size_meta_data = 0 ∨ expected_size_meta_data ≠ meta_data_size then
    .ok (0, st, [])
  else
    let expected_size_data := validate_pointer st data_offset
    if expected_size_data = 0 ∨ expected_size_data ≠ data_size then
      .ok (0, st, [])
    else
      let input_vec_meta_data := (readMem st meta_data_offset meta_data_size).getD []
      let input_vec_data := (readMem st data_offset data_size).getD []
      do
        let meta_batches ← dec input_vec_meta_data
        runChecks checkMetaBatch meta_batches
        let data_batches ← dec input_vec_data
        runChecks checkDataBatch data_batches
        let serialized_result_batch := enc moduleResultBatch
        let (serialized_result_batch_ptr, st1) :=
          allocate st serialized_result_batch.length serialized_result_batch
        let vec_meta := toLe usizeBytes serialized_result_batch_ptr ++
          toLe usizeBytes serialized_result_batch.length
        let (serialized_result_batch_meta_ptr, st2) := allocate st1 vec_meta.length vec_meta
        .ok (serialized_result_batch_meta_ptr, st2, [input_vec_meta_data, input_vec_data])

/-! ## Host call drivers (`wasm-app/src/main.rs`)

The wrappers reach the guest only through the wasmtime dispatch
(`func_validated.call`), so each driver is parametrized over the called guest
function and over `wasm_deallocate`; the concrete module functions are plugged
in for the round-trip theorems.  Each driver returns the call result (an
`anyhow::Result`, `Except.error` covering both `bail!` and a propagated trap),
the final guest state, and the list of `(addr, len)` guest-memory reads
performed to retrieve the result. -/

/-- The bytes the host scan loop of the pattern-(a) wrapper accumulates:
everything up to and including the first zero byte. -/
def takeThroughZero : List Nat → List Nat
  | [] => []
  | b :: t => if b = 0 then [0] else b :: takeThroughZero t

/-- The pattern-(a) result scan (main.rs lines 189–199): read bytes one by one
from `addr` until a zero byte.  The model resolves the scan inside the buffer
containing `addr` and refuses (`none`) when no terminator exists there (the
real loop would walk into neighbouring memory). -/
def scanNul (st : GuestState) (addr : Nat) : Option (List Nat) :=
  match st.table.find? (fun p => inRange p addr 1) with
  | some p =>
    let tailBytes := p.2.data.drop (addr - p.1)
    if 0 ∈ tailBytes then some (takeThroughZero tailBytes) else none
  | none => none

/-- The input allocation of the pattern-(a) wrapper:
`wasm_allocate(param_name_cstring_as_bytes.len())`. -/
def sessionAllocA (st0 : GuestState) (s : List Nat) : Nat × GuestState :=
  wasm_allocate st0 (s ++ [0]).length

/-- The guest state the pattern-(a) wrapper calls the adapter in: the input
buffer allocated and filled with the nul-terminated parameter bytes. -/
def sessionStateA (st0 : GuestState) (s : List Nat) : GuestState :=
  writeMem (sessionAllocA st0 s).2 (sessionAllocA st0 s).1 (s ++ [0])

/-- Driver `wrapper_wasm_c_format_hello_world` (main.rs lines 132–216).  The result
string is modelled by its bytes (`CStr::to_str` on the scanned bytes keeps
everything before the terminator). -/
def wrapper_wasm_c_format_hello_world
    (callFn : GuestState → Nat → Except String (Nat × GuestState))
    (deallocFn : GuestState → Nat → Int × GuestState)
    (st0 : GuestState) (s : List Nat) :
    Except String (List Nat) × GuestState × List (Nat × Nat) :=
  match callFn (sessionStateA st0 s) (sessionAllocA st0 s).1 with
  | .error e => (.error e, sessionStateA st0 s, [])
  | .ok (result_offset, st3) =>
    if result_offset = 0 then
      (.error "Error: No valid answer received from function", st3, [])
    else
      match scanNul st3 result_offset with
      | none => (.error "memory read failed", st3, [])
      | some result_v_u8 =>
        let st4 := (deallocFn st3 (sessionAllocA st0 s).1).2
        let st5 := (deallocFn st4 result_offset).2
        (.ok (result_v_u8.takeWhile (fun b => b ≠ 0)), st5,
          [(result_offset, result_v_u8.length)])

/-- The input allocation of the pattern-(b) wrapper:
`wasm_allocate(param_name_string_as_bytes.len())`. -/
def sessionAllocB (st0 : GuestState) (s : List Nat) : Nat × GuestState :=
  wasm_allocate st0 s.length

/-- The guest state the pattern-(b) wrapper calls the adapter in. -/
def sessionStateB (st0 : GuestState) (s : List Nat) : GuestState :=
  writeMem (sessionAllocB st0 s).2 (sessionAllocB st0 s).1 s

/-- Driver `wrapper_wasm_rust_format_hello_world` (main.rs lines 224–322): allocate
and write the parameter, call the adapter, and on a nonzero handle read the
two packed little-endian `u32` words and then the result bytes; all three
deallocations happen after the result bytes were copied out. -/
def wrapper_wasm_rust_format_hello_world
    (callFn : GuestState → Nat → Nat → Nat × GuestState × List (List Nat))
    (deallocFn : GuestState → Nat → Int × GuestState)
    (st0 : GuestState) (s : List Nat) :
    Except String (List Nat) × GuestState × List (Nat × Nat) :=
  let result_offset := (callFn (sessionStateB st0 s) (sessionAllocB st0 s).1 s.length).1
  let st3 := (callFn (sessionStateB st0 s) (sessionAllocB st0 s).1 s.length).2.1
  if result_offset = 0 then
    (.error "Error: No valid answer received from function", st3, [])
  else
    match readMem st3 result_offset 4, readMem st3 (result_offset + 4) 4 with
    | some ptr_buffer, some len_buffer =>
      let result_ptr := fromLe ptr_buffer
      let result_len := fromLe len_buffer
      match readMem st3 result_ptr result_len with
      | some result_str_buffer =>
        let st4 := (deallocFn st3 (sessionAllocB st0 s).1).2
        let st5 := (deallocFn st4 result_offset).2
        let st6 := (deallocFn st5 result_ptr).2
        (.ok result_str_buffer, st6,
          [(result_offset, 4), (result_offset + 4, 4), (result_ptr, result_len)])
      | none =>
        (.error "memory read failed", st3, [(result_offset, 4), (result_offset + 4, 4)])
    | _, _ => (.error "memory read failed", st3, [])

/-- Payload `create_arrow_example_meta_data` (main.rs lines 545–576):
`{command: "test", config: {filename: "test.txt"}}`. -/
def exampleMetaBatch : ArrowBatchModel :=
  { fields := [⟨"command", .prim .utf8, false⟩,
               ⟨"config", .structT [("filename", .utf8, false)], false⟩]
    numRows := 1
    columns := [[.vUtf8 "test"], [.vStructStr [("filename", "test.txt")]]] }

/-- Payload `create_arrow_example_data` (main.rs lines 500–540). -/
def exampleDataBatch : ArrowBatchModel :=
  { fields := [⟨"id", .prim .uint64, false⟩,
               ⟨"content", .prim .utf8, false⟩,
               ⟨"title", .prim .utf8, false⟩,
               ⟨"date", .prim (.timestampSec (some "+00:00")), false⟩,
               ⟨"score", .prim .float64, false⟩]
    numRows := 1
    columns := [[.vUInt64 1], [.vUtf8 "this is a test"], [.vUtf8 "test"],
                [.vTimestampSec 1641038400], [.vFloat64 "1.123456"]] }

/-- The two input allocations and writes of the pattern-(c) wrapper, given the
encoded example payloads. -/
def sessionAllocC1 (enc : ArrowBatchModel → List Nat) (st0 : GuestState) :
    Nat × GuestState :=
  wasm_allocate st0 (enc exampleMetaBatch).length

/-- State after writing the serialized meta data into its buffer. -/
def sessionStateC1 (enc : ArrowBatchModel → List Nat) (st0 : GuestState) : GuestState :=
  writeMem (sessionAllocC1 enc st0).2 (sessionAllocC1 enc st0).1 (enc exampleMetaBatch)

/-- The data-payload allocation of the pattern-(c) wrapper. -/
def sessionAllocC2 (enc : ArrowBatchModel → List Nat) (st0 : GuestState) :
    Nat × GuestState :=
  wasm_allocate (sessionStateC1 enc st0) (enc exampleDataBatch).length

/-- The guest state the pattern-(c) wrapper calls the adapter in. -/
def sessionStateC2 (enc : ArrowBatchModel → List Nat) (st0 : GuestState) : GuestState :=
  writeMem (sessionAllocC2 enc st0).2 (sessionAllocC2 enc st0).1 (enc exampleDataBatch)

/-- Driver `wrapper_wasm_process_data_arrow` (main.rs lines 329–452): write both
example payloads, call the adapter, decode the packed metadata, read the
result-batch bytes, deallocate all four buffers, then decode the result
stream for printing (an `unwrap` failure there is a panic) and return `Ok("")`
(modelled as the empty byte string). -/
def wrapper_wasm_process_data_arrow
    (enc : ArrowBatchModel → List Nat)
    (dec : List Nat → Except String (List ArrowBatchModel))
    (callFn : GuestState → Nat → Nat → Nat → Nat →
      Except String (Nat × GuestState × List (List Nat)))
    (deallocFn : GuestState → Nat → Int × GuestState)
    (st0 : GuestState) :
    Except String (List Nat) × GuestState × List (Nat × Nat) :=
  match callFn (sessionStateC2 enc st0) (sessionAllocC1 enc st0).1 (enc exampleMetaBatch).length
      (sessionAllocC2 enc st0).1 (enc exampleDataBatch).length with
  | .error e => (.error e, sessionStateC2 enc st0, [])
  | .ok (result_offset, st5, _) =>
    if result_offset = 0 then
      (.error "Error: No valid answer received from function", st5, [])
    else
      match readMem st5 result_offset 4, readMem st5 (result_offset + 4) 4 with
      | some ptr_buffer, some len_buffer =>
        let result_ptr := fromLe ptr_buffer
        let result_len := fromLe len_buffer
        match readMem st5 result_ptr result_len with
        | some result_arrow_ipc =>
          let st6 := (deallocFn st5 (sessionAllocC1 enc st0).1).2
          let st7 := (deallocFn st6 (sessionAllocC2 enc st0).1).2
          let st8 := (deallocFn st7 result_offset).2
          let st9 := (deallocFn st8 result_ptr).2
          match dec result_arrow_ipc with
          | .ok _ =>
            (.ok [], st9,
              [(result_offset, 4), (result_offset + 4, 4), (result_ptr, result_len)])
          | .error e => (.error e, st9,
              [(result_offset, 4), (result_offset + 4, 4), (result_ptr, result_len)])
        | none =>
          (.error "memory read failed", st5, [(result_offset, 4), (result_offset + 4, 4)])
      | _, _ => (.error "memory read failed", st5, [])

/-! ## Basic lemmas about the table, memory and word encodings -/

theorem toLe_length (w v : Nat) : (toLe w v).length = w := by
  induction w generalizing v with
  | zero => rfl
  | succ w ih => simp [toLe, ih]

theorem fromLe_toLe (w v : Nat) (h : v < 256 ^ w) : fromLe (toLe w v) = v := by
  induction w generalizing v with
  | zero => simp [toLe, fromLe]; omega
  | succ w ih =>
    have hd : v / 256 < 256 ^ w := by
      rw [Nat.div_lt_iff_lt_mul (by norm_num)]
      calc v < 256 ^ (w + 1) := h
        _ = 256 ^ w * 256 := by ring
    simp [toLe, fromLe, ih _ hd]
    omega

@[simp] theorem lookupTable_nil (k : Nat) : lookupTable [] k = none := rfl

@[simp] theorem lookupTable_cons_self (k : Nat) (b : Buffer) (t : List (Nat × Buffer)) :
    lookupTable ((k, b) :: t) k = some b := by
  simp [lookupTable]

theorem lookupTable_cons_ne (k : Nat) (b : Buffer) (t : List (Nat × Buffer)) (k' : Nat)
    (h : k ≠ k') : lookupTable ((k, b) :: t) k' = lookupTable t k' := by
  simp [lookupTable, h]

theorem lookupTable_eraseKey_self (t : List (Nat × Buffer)) (k : Nat) :
    lookupTable (eraseKey t k) k = none := by
  induction t with
  | nil => rfl
  | cons p t ih =>
    by_cases h : p.1 = k
    · simpa [eraseKey, h] using ih
    · simpa [eraseKey, h, lookupTable] using ih

theorem lookupTable_none_of_keys_lt (t : List (Nat × Buffer)) (n k : Nat)
    (h : ∀ p ∈ t, p.1 < n) (hk : n ≤ k) : lookupTable t k = none := by
  induction t with
  | nil => rfl
  | cons p t ih =>
    have h1 := h p (by simp)
    have : p.1 ≠ k := by omega
    rw [show p = (p.1, p.2) from rfl, lookupTable_cons_ne _ _ _ _ this]
    exact ih fun q hq => h q (by simp [hq])

theorem inRange_iff (p : Nat × Buffer) (addr len : Nat) :
    inRange p addr len = true ↔ p.1 ≤ addr ∧ addr + len ≤ p.1 + p.2.size := by
  simp [inRange]

theorem readMem_cons_hit (nx : Nat) (p : Nat × Buffer) (t : List (Nat × Buffer))
    (addr len : Nat) (h : inRange p addr len = true) :
    readMem ⟨p :: t, nx⟩ addr len = some ((p.2.data.drop (addr - p.1)).take len) := by
  simp [readMem, List.find?, h]

theorem readMem_cons_miss (nx : Nat) (p : Nat × Buffer) (t : List (Nat × Buffer))
    (addr len : Nat) (h : inRange p addr len = false) :
    readMem ⟨p :: t, nx⟩ addr len = readMem ⟨t, nx⟩ addr len := by
  simp [readMem, List.find?, h]

/-- Allocating a fresh buffer and then writing its exact content: the write
lands in the new buffer and leaves every older buffer untouched, because the
fresh address range lies strictly past all of them. -/
theorem writeMem_fresh_alloc (st0 : GuestState) (bs : List Nat) (n : Nat)
    (hn : bs.length = n)
    (h : ∀ p ∈ st0.table, p.1 + p.2.size < st0.next) :
    writeMem (wasm_allocate st0 n).2 (wasm_allocate st0 n).1 bs
      = ⟨(st0.next, ⟨n, bs⟩) :: st0.table, st0.next + n + 1⟩ := by
  subst hn
  unfold wasm_allocate allocate writeMem
  simp only [GuestState.mk.injEq]
  constructor
  · rw [List.map_cons]
    have hhead : inRange (st0.next, ⟨bs.length, List.replicate bs.length 0⟩)
        st0.next bs.length = true := by
      simp [inRange]
    rw [if_pos hhead]
    have htail : st0.table.map (fun p =>
        if inRange p st0.next bs.length then
          (p.1, ⟨p.2.size, overwrite p.2.data (st0.next - p.1) bs⟩) else p) = st0.table := by
      rw [show st0.table = st0.table.map id by simp]
      rw [List.map_map]
      apply List.map_congr_left
      intro p hp
      have := h p (by simpa using hp)
      have hrange : inRange p st0.next bs.length = false := by
        simp only [inRange, Bool.and_eq_false_iff, decide_eq_false_iff_not]
        omega
      simp [hrange]
    rw [htail]
    simp [overwrite, List.drop_replicate]
  · trivial

/-! ## Claims about the allocator (C3, C9) -/

/-- C3: `deallocate(allocate(n))` succeeds (code `0`) exactly once: the first
deallocation removes the handle from the table, after the removal the handle is
no longer registered, and deallocating any unregistered handle returns the
distinct error code `-1` while leaving the state (so the allocation table)
unchanged — no free is performed on the error path. -/
theorem deallocate_after_allocate_spec (st : GuestState) (n : Nat) :
    (wasm_deallocate (wasm_allocate st n).2 (wasm_allocate st n).1).1 = 0 ∧
    lookupTable ((wasm_deallocate (wasm_allocate st n).2 (wasm_allocate st n).1).2).table
      (wasm_allocate st n).1 = none ∧
    ∀ st2 : GuestState, lookupTable st2.table (wasm_allocate st n).1 = none →
      wasm_deallocate st2 (wasm_allocate st n).1 = (-1, st2) := by
  refine ⟨?_, ?_, ?_⟩
  · simp [wasm_allocate, allocate, wasm_deallocate]
  · simp only [wasm_allocate, allocate, wasm_deallocate, lookupTable_cons_self]
    exact lookupTable_eraseKey_self _ _
  · intro st2 h2
    simp [wasm_deallocate, h2]

/-- Witness for C3 at a concrete state: allocating 5 bytes in the empty state
and deallocating twice yields `0` and then `-1` with the state untouched. -/
theorem deallocate_after_allocate_spec_witness :
    (wasm_deallocate (wasm_allocate ⟨[], 1⟩ 5).2 (wasm_allocate ⟨[], 1⟩ 5).1).1 = 0 ∧
    wasm_deallocate ⟨[], 7⟩ (wasm_allocate ⟨[], 1⟩ 5).1 = (-1, ⟨[], 7⟩) :=
  ⟨(deallocate_after_allocate_spec ⟨[], 1⟩ 5).1,
   (deallocate_after_allocate_spec ⟨[], 1⟩ 5).2.2 ⟨[], 7⟩ (by decide)⟩

/-- C9: `validate_pointer` returns the size currently recorded for the handle,
`0` for any handle not registered — in particular, in a well-formed state, for
every handle the allocator never handed out (`next ≤ h`) — and as a state
transformer it leaves the table unchanged (the source takes only a shared
borrow). -/
theorem validate_pointer_spec :
    (∀ (st : GuestState) (h : Nat) (b : Buffer),
        lookupTable st.table h = some b → validateRun st h = (b.size, st)) ∧
    (∀ (st : GuestState) (h : Nat),
        lookupTable st.table h = none → validateRun st h = (0, st)) ∧
    (∀ st : GuestState, WF st → ∀ h : Nat, st.next ≤ h → validateRun st h = (0, st)) := by
  refine ⟨?_, ?_, ?_⟩
  · intro st h b hb
    simp [validateRun, validate_pointer, hb]
  · intro st h hn
    simp [validateRun, validate_pointer, hn]
  · intro st hwf h hn
    have : lookupTable st.table h = none := by
      apply lookupTable_none_of_keys_lt st.table st.next h _ hn
      intro p hp
      have := (hwf.2 p hp).1
      omega
    simp [validateRun, validate_pointer, this]

/-- Witness for C9: a registered handle yields its recorded size, an
unregistered one yields `0`, both without touching the state. -/
theorem validate_pointer_spec_witness :
    validateRun ⟨[(3, ⟨2, [9, 9]⟩)], 6⟩ 3 = (2, ⟨[(3, ⟨2, [9, 9]⟩)], 6⟩) ∧
    validateRun ⟨[(3, ⟨2, [9, 9]⟩)], 6⟩ 7 = (0, ⟨[(3, ⟨2, [9, 9]⟩)], 6⟩) :=
  ⟨validate_pointer_spec.1 ⟨[(3, ⟨2, [9, 9]⟩)], 6⟩ 3 ⟨2, [9, 9]⟩ (by decide),
   validate_pointer_spec.2.2 ⟨[(3, ⟨2, [9, 9]⟩)], 6⟩ (by decide) 7 (by decide)⟩

/-! ## Claim C4: declared-length mismatches are rejected before any read -/

/-- C4: whenever the declared length of a handle differs from the size recorded
in the allocation table — in particular when the handle is not registered, in
which case `validate_pointer` yields `0` — the pattern-(b) adapter and the
pattern-(c) adapter (for either of its two handle/length pairs, and for every
codec) return the sentinel `0` with the state unchanged and an empty list of
input reads: no input byte is fetched before the rejection. -/
theorem length_mismatch_rejected :
    (∀ (st : GuestState) (offset length : Nat),
        validate_pointer st offset = 0 ∨ validate_pointer st offset ≠ length →
        wasm_memory_rust_format_hello_world st offset length = (0, st, [])) ∧
    (∀ (dec : List Nat → Except String (List ArrowBatchModel))
        (enc : ArrowBatchModel → List Nat) (st : GuestState) (mOff mSize dOff dSize : Nat),
        validate_pointer st mOff = 0 ∨ validate_pointer st mOff ≠ mSize →
        wasm_memory_process_data_arrow dec enc st mOff mSize dOff dSize = .ok (0, st, [])) ∧
    (∀ (dec : List Nat → Except String (List ArrowBatchModel))
        (enc : ArrowBatchModel → List Nat) (st : GuestState) (mOff mSize dOff dSize : Nat),
        validate_pointer st dOff = 0 ∨ validate_pointer st dOff ≠ dSize →
        wasm_memory_process_data_arrow dec enc st mOff mSize dOff dSize = .ok (0, st, [])) := by
  refine ⟨?_, ?_, ?_⟩
  · intro st offset length h
    unfold wasm_memory_rust_format_hello_world
    rw [if_pos h]
  · intro dec enc st mOff mSize dOff dSize h
    unfold wasm_memory_process_data_arrow
    rw [if_pos h]
  · intro dec enc st mOff mSize dOff dSize h
    unfold wasm_memory_process_data_arrow
    by_cases hm : validate_pointer st mOff = 0 ∨ validate_pointer st mOff ≠ mSize
    · rw [if_pos hm]
    · rw [if_neg hm, if_pos h]

/-- Witness for C4: a declared length of `2` against a buffer registered with
size `3`, and an unregistered data handle, are both rejected with no read. -/
theorem length_mismatch_rejected_witness :
    wasm_memory_rust_format_hello_world ⟨[(1, ⟨3, [7, 7, 7]⟩)], 5⟩ 1 2
      = (0, ⟨[(1, ⟨3, [7, 7, 7]⟩)], 5⟩, []) ∧
    wasm_memory_process_data_arrow (fun _ => .ok []) (fun _ => [])
        ⟨[(1, ⟨3, [7, 7, 7]⟩)], 5⟩ 1 3 2 4
      = .ok (0, ⟨[(1, ⟨3, [7, 7, 7]⟩)], 5⟩, []) :=
  ⟨length_mismatch_rejected.1 ⟨[(1, ⟨3, [7, 7, 7]⟩)], 5⟩ 1 2 (by decide),
   length_mismatch_rejected.2.2 (fun _ => .ok []) (fun _ => [])
     ⟨[(1, ⟨3, [7, 7, 7]⟩)], 5⟩ 1 3 2 4 (by decide)⟩

/-! ## Claim C1: content mismatches in the tabular adapter

The source validates the decoded command and data batches with `assert_eq!`
(module 2, lines 108–180): a wrong field name, field type, row count or value
makes the assertion panic, which traps the wasm call.  The sentinel `0` is
returned only by the handle/length validation that precedes the content
checks, so the claim that a content mismatch makes the adapter *return `0`*
fails on the code. -/

/-- Reduction of the exception monad: binding a success applies the
continuation. -/
@[simp] theorem exceptBind_ok {α β : Type} (a : α) (f : α → Except String β) :
    (Except.ok a >>= f) = f a := rfl

/-- Reduction of the exception monad: a panic short-circuits the rest. -/
@[simp] theorem exceptBind_error {α β : Type} (e : String) (f : α → Except String β) :
    ((Except.error e : Except String α) >>= f) = Except.error e := rfl

/-- C1 counterexample: a concrete state whose two handles and declared lengths
validate, with a decoder producing a command batch whose first field is named
`"commandX"` instead of `"command"`: the adapter traps with an assertion
failure (an `Except.error`, not a returned value), in particular it does not
return the sentinel `0`. -/
theorem arrow_content_mismatch_counterexample :
    wasm_memory_process_data_arrow
        (fun _ => .ok [⟨[⟨"commandX", .prim .utf8, false⟩,
                         ⟨"config", .structT [("filename", .utf8, false)], false⟩], 1,
                        [[.vUtf8 "test"], [.vStructStr [("filename", "test.txt")]]]⟩])
        (fun _ => [0])
        ⟨[(1, ⟨3, [7, 7, 7]⟩), (5, ⟨4, [8, 8, 8, 8]⟩)], 10⟩ 1 3 5 4
      = .error "assertion failed" ∧
    wasm_memory_process_data_arrow
        (fun _ => .ok [⟨[⟨"commandX", .prim .utf8, false⟩,
                         ⟨"config", .structT [("filename", .utf8, false)], false⟩], 1,
                        [[.vUtf8 "test"], [.vStructStr [("filename", "test.txt")]]]⟩])
        (fun _ => [0])
        ⟨[(1, ⟨3, [7, 7, 7]⟩), (5, ⟨4, [8, 8, 8, 8]⟩)], 10⟩ 1 3 5 4
      ≠ .ok (0, ⟨[(1, ⟨3, [7, 7, 7]⟩), (5, ⟨4, [8, 8, 8, 8]⟩)], 10⟩, []) := by
  refine ⟨rfl, ?_⟩
  intro h
  rw [show wasm_memory_process_data_arrow
        (fun _ => .ok [⟨[⟨"commandX", .prim .utf8, false⟩,
                         ⟨"config", .structT [("filename", .utf8, false)], false⟩], 1,
                        [[.vUtf8 "test"], [.vStructStr [("filename", "test.txt")]]]⟩])
        (fun _ => [0])
        ⟨[(1, ⟨3, [7, 7, 7]⟩), (5, ⟨4, [8, 8, 8, 8]⟩)], 10⟩ 1 3 5 4
      = Except.error "assertion failed" from rfl] at h
  exact Except.noConfusion h

/-- C1 amended: for every command or data payload whose handles and declared
lengths validate but whose decoded batches fail the hardcoded content checks
(wrong field name, type, row count or value), the pattern-(c) adapter panics —
a wasm trap, modelled as `Except.error` — rather than returning; the sentinel
`0` arises only from the preceding handle/length validation. -/
theorem arrow_content_mismatch_traps :
    (∀ (dec : List Nat → Except String (List ArrowBatchModel))
        (enc : ArrowBatchModel → List Nat) (st : GuestState)
        (mOff mSize dOff dSize : Nat) (mbs : List ArrowBatchModel) (e : String),
        validate_pointer st mOff = mSize → mSize ≠ 0 →
        validate_pointer st dOff = dSize → dSize ≠ 0 →
        dec ((readMem st mOff mSize).getD []) = .ok mbs →
        runChecks checkMetaBatch mbs = .error e →
        wasm_memory_process_data_arrow dec enc st mOff mSize dOff dSize = .error e) ∧
    (∀ (dec : List Nat → Except String (List ArrowBatchModel))
        (enc : ArrowBatchModel → List Nat) (st : GuestState)
        (mOff mSize dOff dSize : Nat) (mbs dbs : List ArrowBatchModel) (e : String),
        validate_pointer st mOff = mSize → mSize ≠ 0 →
        validate_pointer st dOff = dSize → dSize ≠ 0 →
        dec ((readMem st mOff mSize).getD []) = .ok mbs →
        runChecks checkMetaBatch mbs = .ok () →
        dec ((readMem st dOff dSize).getD []) = .ok dbs →
        runChecks checkDataBatch dbs = .error e →
        wasm_memory_process_data_arrow dec enc st mOff mSize dOff dSize = .error e) := by
  constructor
  · intro dec enc st mOff mSize dOff dSize mbs e hm hm0 hd hd0 hdec hchk
    unfold wasm_memory_process_data_arrow
    rw [if_neg (by omega), if_neg (by omega)]
    simp [hdec, hchk]
  · intro dec enc st mOff mSize dOff dSize mbs dbs e hm hm0 hd hd0 hdecm hchkm hdecd hchkd
    unfold wasm_memory_process_data_arrow
    rw [if_neg (by omega), if_neg (by omega)]
    simp [hdecm, hchkm, hdecd, hchkd]

/-- Witness for the amended C1 at the counterexample input. -/
theorem arrow_content_mismatch_traps_witness :
    wasm_memory_process_data_arrow
        (fun _ => .ok [⟨[⟨"commandX", .prim .utf8, false⟩,
                         ⟨"config", .structT [("filename", .utf8, false)], false⟩], 1,
                        [[.vUtf8 "test"], [.vStructStr [("filename", "test.txt")]]]⟩])
        (fun _ => [0])
        ⟨[(2, ⟨3, [7, 7, 7]⟩), (6, ⟨4, [8, 8, 8, 8]⟩)], 11⟩ 2 3 6 4
      = .error "assertion failed" :=
  arrow_content_mismatch_traps.1 _ _ ⟨[(2, ⟨3, [7, 7, 7]⟩), (6, ⟨4, [8, 8, 8, 8]⟩)], 11⟩
    2 3 6 4 _ _ (by decide) (by decide) (by decide) (by decide) (by rfl) (by rfl)

/-! ## Claim C5: the pattern-(a) round trip -/

@[simp] theorem helloBytes_length (s : List Nat) : (helloBytes s).length = s.length + 14 := by
  simp [helloBytes, helloHead]

theorem zero_notin_helloBytes (s : List Nat) (hs : 0 ∉ s) : 0 ∉ helloBytes s := by
  intro h
  simp [helloBytes, helloHead] at h
  exact hs (by tauto)

theorem firstNulLen_append_zero (s : List Nat) (hs : 0 ∉ s) :
    firstNulLen (s ++ [0]) = some (s.length + 1) := by
  induction s with
  | nil => rfl
  | cons b t ih =>
    have hb : b ≠ 0 := fun hb => hs (by simp [hb])
    have ht : 0 ∉ t := fun h => hs (by simp [h])
    simp [firstNulLen, hb, ih ht]

theorem takeThroughZero_append_zero (s : List Nat) (hs : 0 ∉ s) :
    takeThroughZero (s ++ [0]) = s ++ [0] := by
  induction s with
  | nil => rfl
  | cons b t ih =>
    have hb : b ≠ 0 := fun hb => hs (by simp [hb])
    have ht : 0 ∉ t := fun h => hs (by simp [h])
    simp [takeThroughZero, hb, ih ht]

theorem takeWhile_append_zero (s : List Nat) (hs : 0 ∉ s) :
    (s ++ [0]).takeWhile (fun b => b ≠ 0) = s := by
  induction s with
  | nil => rfl
  | cons b t ih =>
    have hb : b ≠ 0 := fun hb => hs (by simp [hb])
    have ht : 0 ∉ t := fun h => hs (by simp [h])
    rw [List.cons_append, List.takeWhile_cons, if_pos (by simp [hb]), ih ht]

theorem take_length_append (s t : List Nat) : (s ++ t).take s.length = s := by
  simp

/-- The pattern-(a) adapter on the session state the wrapper builds: the
validation passes, the whole nul-terminated input is recovered (valid UTF-8,
since the host wrote the bytes of a Rust string), and the nul-terminated
greeting is allocated and its handle returned. -/
theorem c_format_adapter_on_session (st0 : GuestState) (s : List Nat)
    (htable : ∀ p ∈ st0.table, p.1 + p.2.size < st0.next) (hs : 0 ∉ s)
    (hutf : isValidUtf8 s = true) :
    wasm_memory_c_format_hello_world (sessionStateA st0 s) (sessionAllocA st0 s).1
      = .ok (st0.next + (s.length + 1) + 1,
          ⟨(st0.next + (s.length + 1) + 1,
              ⟨(helloBytes s ++ [0]).length, helloBytes s ++ [0]⟩)
            :: (st0.next, ⟨s.length + 1, s ++ [0]⟩) :: st0.table,
            st0.next + (s.length + 1) + 1 + (helloBytes s ++ [0]).length + 1⟩) := by
  have hsess : sessionStateA st0 s
      = ⟨(st0.next, ⟨s.length + 1, s ++ [0]⟩) :: st0.table, st0.next + (s.length + 1) + 1⟩ := by
    unfold sessionStateA sessionAllocA
    have hlen : (s ++ [0]).length = s.length + 1 := by simp
    rw [hlen]
    exact writeMem_fresh_alloc st0 (s ++ [0]) (s.length + 1) (by simp) htable
  have hoff : (sessionAllocA st0 s).1 = st0.next := rfl
  rw [hsess, hoff]
  unfold wasm_memory_c_format_hello_world
  simp only [validate_pointer, lookupTable_cons_self]
  rw [if_neg (by omega)]
  rw [firstNulLen_append_zero s hs]
  simp only [Nat.add_sub_cancel, if_neg (by omega : ¬ s.length + 1 ≠ s.length + 1)]
  simp only [take_length_append]
  rw [if_pos hutf]
  rfl

/-- C5: for every name without an embedded zero byte, the pattern-(a) round
trip — allocate the nul-terminated bytes, write them, call
`wasm_memory_c_format_hello_world`, scan the returned handle up to the first
zero byte — decodes exactly to the greeting `"Hello World, {s}!"` (modelled at
the byte level; the valid-UTF-8 hypothesis states that `s` is the byte
sequence of a Rust string, which is what the host wrapper takes). -/
theorem c_format_round_trip (st0 : GuestState) (s : List Nat)
    (hwf : WF st0) (hs : 0 ∉ s) (hutf : isValidUtf8 s = true) :
    (wrapper_wasm_c_format_hello_world wasm_memory_c_format_hello_world
        wasm_deallocate st0 s).1 = .ok (helloBytes s) := by
  have htable : ∀ p ∈ st0.table, p.1 + p.2.size < st0.next := fun p hp => (hwf.2 p hp).1
  have hadap := c_format_adapter_on_session st0 s htable hs hutf
  unfold wrapper_wasm_c_format_hello_world
  simp only [hadap]
  rw [if_neg (by omega : ¬ st0.next + (s.length + 1) + 1 = 0)]
  have hscan : scanNul
      ⟨(st0.next + (s.length + 1) + 1,
          ⟨(helloBytes s ++ [0]).length, helloBytes s ++ [0]⟩)
        :: (st0.next, ⟨s.length + 1, s ++ [0]⟩) :: st0.table,
        st0.next + (s.length + 1) + 1 + (helloBytes s ++ [0]).length + 1⟩
      (st0.next + (s.length + 1) + 1)
      = some (helloBytes s ++ [0]) := by
    unfold scanNul
    rw [List.find?_cons_of_pos _ (by simp [inRange])]
    simp only [Nat.sub_self, List.drop_zero]
    rw [if_pos (by simp)]
    rw [takeThroughZero_append_zero _ (zero_notin_helloBytes s hs)]
  rw [hscan]
  simp only []
  rw [takeWhile_append_zero _ (zero_notin_helloBytes s hs)]

/-- Witness for C5 at `s = "Rust (C ABI)"` in the empty instance state. -/
theorem c_format_round_trip_witness :
    (wrapper_wasm_c_format_hello_world wasm_memory_c_format_hello_world
        wasm_deallocate ⟨[], 1⟩
        [82, 117, 115, 116, 32, 40, 67, 32, 65, 66, 73, 41]).1
      = .ok (helloBytes [82, 117, 115, 116, 32, 40, 67, 32, 65, 66, 73, 41]) :=
  c_format_round_trip ⟨[], 1⟩ _ (by decide) (by decide) (by decide)

/-! ## Claim C2: the pattern-(b) round trip

The claim includes the empty string, but `wasm_allocate(0)` registers its
buffer with size `0`, and the adapter cannot distinguish a registered size of
`0` from an unregistered handle (`validate_pointer` returns `0` either way):
for `s = ""` the adapter returns the sentinel `0` and the host driver reports
"no valid answer".  The round trip holds for every nonempty string. -/

/-- C2 counterexample: the pattern-(b) round trip at the empty string fails
with the no-valid-answer error — the greeting is not produced. -/
theorem rust_format_round_trip_empty_counterexample :
    (wrapper_wasm_rust_format_hello_world wasm_memory_rust_format_hello_world
        wasm_deallocate ⟨[], 1⟩ []).1
      = .error "Error: No valid answer received from function" := rfl

/-- The pattern-(b) adapter on the session state the wrapper builds for a
nonempty input: validation passes, the input bytes are read back, the greeting
and then the packed `[ptr][len]` metadata buffer are allocated. -/
theorem rust_format_adapter_on_session (st0 : GuestState) (s : List Nat)
    (htable : ∀ p ∈ st0.table, p.1 + p.2.size < st0.next) (hne : s.length ≠ 0) :
    wasm_memory_rust_format_hello_world (sessionStateB st0 s) (sessionAllocB st0 s).1 s.length
      = (st0.next + s.length + 1 + (helloBytes s).length + 1,
         ⟨(st0.next + s.length + 1 + (helloBytes s).length + 1,
             ⟨(toLe usizeBytes (st0.next + s.length + 1)
                 ++ toLe usizeBytes (helloBytes s).length).length,
               toLe usizeBytes (st0.next + s.length + 1)
                 ++ toLe usizeBytes (helloBytes s).length⟩)
           :: (st0.next + s.length + 1, ⟨(helloBytes s).length, helloBytes s⟩)
           :: (st0.next, ⟨s.length, s⟩) :: st0.table,
           st0.next + s.length + 1 + (helloBytes s).length + 1
             + (toLe usizeBytes (st0.next + s.length + 1)
                 ++ toLe usizeBytes (helloBytes s).length).length + 1⟩,
         [s]) := by
  have hsess : sessionStateB st0 s
      = ⟨(st0.next, ⟨s.length, s⟩) :: st0.table, st0.next + s.length + 1⟩ := by
    unfold sessionStateB sessionAllocB
    exact writeMem_fresh_alloc st0 s s.length rfl htable
  have hoff : (sessionAllocB st0 s).1 = st0.next := rfl
  rw [hsess, hoff]
  unfold wasm_memory_rust_format_hello_world
  simp only [validate_pointer, lookupTable_cons_self]
  rw [if_neg (by omega : ¬ (s.length = 0 ∨ s.length ≠ s.length))]
  rw [readMem_cons_hit _ _ _ _ _ (by simp [inRange])]
  simp only [Nat.sub_self, List.drop_zero, List.take_length, Option.getD_some]
  rfl

/-- C2 (amended to nonempty strings): for every nonempty string, the
pattern-(b) round trip — allocate a buffer of the byte length, write the
bytes, call `wasm_memory_rust_format_hello_world` with that exact length,
decode the packed `{ptr,len}` metadata, read `len` bytes at `ptr` — yields
exactly the greeting `"Hello World, {s}!"`.  The bound keeps the involved
addresses below `2^32`, as on the real wasm32 target. -/
theorem rust_format_round_trip (st0 : GuestState) (s : List Nat)
    (hwf : WF st0) (hne : s ≠ [])
    (hbound : st0.next + s.length + 15 < 2 ^ 32) :
    (wrapper_wasm_rust_format_hello_world wasm_memory_rust_format_hello_world
        wasm_deallocate st0 s).1 = .ok (helloBytes s) := by
  have htable : ∀ p ∈ st0.table, p.1 + p.2.size < st0.next := fun p hp => (hwf.2 p hp).1
  have hlen : s.length ≠ 0 := fun h => hne (List.length_eq_zero.mp h)
  have hadap := rust_format_adapter_on_session st0 s htable hlen
  unfold wrapper_wasm_rust_format_hello_world
  simp only [hadap]
  rw [if_neg (by omega : ¬ st0.next + s.length + 1 + (helloBytes s).length + 1 = 0)]
  rw [readMem_cons_hit _ _ _ _ _ (by simp [inRange, toLe_length, usizeBytes])]
  rw [readMem_cons_hit _ _ _ _ _ (by simp [inRange, toLe_length, usizeBytes])]
  simp only [Nat.sub_self, Nat.add_sub_cancel_left, List.drop_zero]
  rw [show (toLe usizeBytes (st0.next + s.length + 1)
        ++ toLe usizeBytes (helloBytes s).length).take 4
      = toLe usizeBytes (st0.next + s.length + 1) by
    conv_lhs => rw [show (4 : Nat) = (toLe usizeBytes (st0.next + s.length + 1)).length from
      (toLe_length _ _).symm]
    exact take_length_append _ _]
  rw [show ((toLe usizeBytes (st0.next + s.length + 1)
        ++ toLe usizeBytes (helloBytes s).length).drop 4).take 4
      = toLe usizeBytes (helloBytes s).length by
    conv_lhs => rw [show (4 : Nat) = (toLe usizeBytes (st0.next + s.length + 1)).length from
      (toLe_length _ _).symm]
    rw [List.drop_left]
    exact (List.take_of_length_le (by rw [toLe_length, toLe_length])).trans rfl]
  have hb : st0.next + s.length + 15 < 4294967296 := by norm_num at hbound; exact hbound
  rw [fromLe_toLe usizeBytes (st0.next + s.length + 1)
    (by simp only [usizeBytes]; norm_num; omega)]
  rw [fromLe_toLe usizeBytes (helloBytes s).length
    (by rw [helloBytes_length]; simp only [usizeBytes]; norm_num; omega)]
  rw [readMem_cons_miss _ _ _ _ _ (by simp [inRange]; omega)]
  rw [readMem_cons_hit _ _ _ _ _ (by simp [inRange])]
  simp only [Nat.sub_self, List.drop_zero, List.take_length]

/-- Witness for C2 at `s = "Rust (Rust ABI)"` in the empty instance state. -/
theorem rust_format_round_trip_witness :
    (wrapper_wasm_rust_format_hello_world wasm_memory_rust_format_hello_world
        wasm_deallocate ⟨[], 1⟩
        [82, 117, 115, 116, 32, 40, 82, 117, 115, 116, 32, 65, 66, 73, 41]).1
      = .ok (helloBytes [82, 117, 115, 116, 32, 40, 82, 117, 115, 116, 32, 65, 66, 73, 41]) :=
  rust_format_round_trip ⟨[], 1⟩ _ (by decide) (by decide) (by norm_num)

/-! ## Claim C7: a `0` handle aborts the call with no result read -/

/-- C7: for each of the three wrappers, whenever the called guest function
returns the handle `0`, the driver fails the call with the no-valid-answer
error and performs no guest-memory read for the result (the read list is
empty); this holds for every called function and every deallocator. -/
theorem zero_sentinel_aborts_without_read :
    (∀ (cf : GuestState → Nat → Except String (Nat × GuestState))
        (df : GuestState → Nat → Int × GuestState) (st0 : GuestState) (s : List Nat)
        (st3 : GuestState),
        cf (sessionStateA st0 s) (sessionAllocA st0 s).1 = .ok (0, st3) →
        wrapper_wasm_c_format_hello_world cf df st0 s
          = (.error "Error: No valid answer received from function", st3, [])) ∧
    (∀ (cf : GuestState → Nat → Nat → Nat × GuestState × List (List Nat))
        (df : GuestState → Nat → Int × GuestState) (st0 : GuestState) (s : List Nat)
        (st3 : GuestState) (rds : List (List Nat)),
        cf (sessionStateB st0 s) (sessionAllocB st0 s).1 s.length = (0, st3, rds) →
        wrapper_wasm_rust_format_hello_world cf df st0 s
          = (.error "Error: No valid answer received from function", st3, [])) ∧
    (∀ (enc : ArrowBatchModel → List Nat) (dec : List Nat → Except String (List ArrowBatchModel))
        (cf : GuestState → Nat → Nat → Nat → Nat → Except String (Nat × GuestState × List (List Nat)))
        (df : GuestState → Nat → Int × GuestState) (st0 : GuestState)
        (st5 : GuestState) (rds : List (List Nat)),
        cf (sessionStateC2 enc st0) (sessionAllocC1 enc st0).1 (enc exampleMetaBatch).length
            (sessionAllocC2 enc st0).1 (enc exampleDataBatch).length = .ok (0, st5, rds) →
        wrapper_wasm_process_data_arrow enc dec cf df st0
          = (.error "Error: No valid answer received from function", st5, [])) := by
  refine ⟨?_, ?_, ?_⟩
  · intro cf df st0 s st3 h
    unfold wrapper_wasm_c_format_hello_world
    rw [h]
    simp
  · intro cf df st0 s st3 rds h
    unfold wrapper_wasm_rust_format_hello_world
    rw [h]
    simp
  · intro enc dec cf df st0 st5 rds h
    unfold wrapper_wasm_process_data_arrow
    rw [h]
    simp

/-- Witness for C7: a guest function that always returns the `0` sentinel
makes each wrapper fail with the no-valid-answer error and no result read. -/
theorem zero_sentinel_aborts_without_read_witness :
    wrapper_wasm_c_format_hello_world (fun st _ => .ok (0, st))
        wasm_deallocate ⟨[], 1⟩ [65]
      = (.error "Error: No valid answer received from function",
          sessionStateA ⟨[], 1⟩ [65], []) ∧
    wrapper_wasm_rust_format_hello_world (fun st _ _ => (0, st, []))
        wasm_deallocate ⟨[], 1⟩ [65]
      = (.error "Error: No valid answer received from function",
          sessionStateB ⟨[], 1⟩ [65], []) ∧
    wrapper_wasm_process_data_arrow (fun _ => [3]) (fun _ => .ok [])
        (fun st _ _ _ _ => .ok (0, st, [])) wasm_deallocate ⟨[], 1⟩
      = (.error "Error: No valid answer received from function",
          sessionStateC2 (fun _ => [3]) ⟨[], 1⟩, []) :=
  ⟨zero_sentinel_aborts_without_read.1 (fun st _ => .ok (0, st))
      wasm_deallocate ⟨[], 1⟩ [65] _ rfl,
   zero_sentinel_aborts_without_read.2.1 (fun st _ _ => (0, st, []))
      wasm_deallocate ⟨[], 1⟩ [65] _ [] rfl,
   zero_sentinel_aborts_without_read.2.2 (fun _ => [3]) (fun _ => .ok [])
      (fun st _ _ _ _ => .ok (0, st, [])) wasm_deallocate ⟨[], 1⟩ _ [] rfl⟩

/-! ## Claim C8: failing deallocations never overturn a decoded result -/

/-- C8: once the host has decoded a result (nonzero handle, successful result
reads), the wrappers return that result as success for *every* deallocator —
in particular for one whose deallocations all fail: a nonzero deallocation
code is only logged and does not abort the call. -/
theorem dealloc_failure_does_not_abort :
    (∀ (cf : GuestState → Nat → Except String (Nat × GuestState))
        (df : GuestState → Nat → Int × GuestState) (st0 : GuestState) (s : List Nat)
        (r : Nat) (st3 : GuestState) (bytes : List Nat),
        cf (sessionStateA st0 s) (sessionAllocA st0 s).1 = .ok (r, st3) → r ≠ 0 →
        scanNul st3 r = some bytes →
        (wrapper_wasm_c_format_hello_world cf df st0 s).1
          = .ok (bytes.takeWhile (fun b => b ≠ 0))) ∧
    (∀ (cf : GuestState → Nat → Nat → Nat × GuestState × List (List Nat))
        (df : GuestState → Nat → Int × GuestState) (st0 : GuestState) (s : List Nat)
        (r : Nat) (st3 : GuestState) (rds : List (List Nat)) (pb lb rb : List Nat),
        cf (sessionStateB st0 s) (sessionAllocB st0 s).1 s.length = (r, st3, rds) → r ≠ 0 →
        readMem st3 r 4 = some pb → readMem st3 (r + 4) 4 = some lb →
        readMem st3 (fromLe pb) (fromLe lb) = some rb →
        (wrapper_wasm_rust_format_hello_world cf df st0 s).1 = .ok rb) := by
  constructor
  · intro cf df st0 s r st3 bytes h hr hscan
    unfold wrapper_wasm_c_format_hello_world
    rw [h]
    simp only []
    rw [if_neg hr, hscan]
  · intro cf df st0 s r st3 rds pb lb rb h hr hpb hlb hrb
    unfold wrapper_wasm_rust_format_hello_world
    rw [h]
    simp only []
    rw [if_neg hr, hpb, hlb]
    simp only []
    rw [hrb]

/-- Witness for C8: a deallocator that always fails (`-1`) still lets both
wrappers return the decoded result as success. -/
theorem dealloc_failure_does_not_abort_witness :
    (wrapper_wasm_c_format_hello_world
        (fun _ _ => .ok (2, ⟨[(2, ⟨3, [72, 0, 99]⟩)], 9⟩))
        (fun st _ => (-1, st)) ⟨[], 1⟩ [65]).1 = .ok [72] ∧
    (wrapper_wasm_rust_format_hello_world
        (fun _ _ _ => (5, ⟨[(5, ⟨8, toLe 4 20 ++ toLe 4 2⟩), (20, ⟨2, [104, 105]⟩)], 23⟩, []))
        (fun st _ => (-1, st)) ⟨[], 1⟩ [65]).1 = .ok [104, 105] :=
  ⟨dealloc_failure_does_not_abort.1
      (fun _ _ => .ok (2, ⟨[(2, ⟨3, [72, 0, 99]⟩)], 9⟩)) (fun st _ => (-1, st))
      ⟨[], 1⟩ [65] 2 ⟨[(2, ⟨3, [72, 0, 99]⟩)], 9⟩ [72, 0] rfl (by decide) (by decide),
   dealloc_failure_does_not_abort.2
      (fun _ _ _ => (5, ⟨[(5, ⟨8, toLe 4 20 ++ toLe 4 2⟩), (20, ⟨2, [104, 105]⟩)], 23⟩, []))
      (fun st _ => (-1, st)) ⟨[], 1⟩ [65] 5
      ⟨[(5, ⟨8, toLe 4 20 ++ toLe 4 2⟩), (20, ⟨2, [104, 105]⟩)], 23⟩ []
      [20, 0, 0, 0] [2, 0, 0, 0] [104, 105] rfl (by decide) (by decide) (by decide) (by decide)⟩

/-! ## Claim C10: the pattern-(a) nul-terminated-length gate -/

/-- A nul-terminated length is always at least one (the terminator itself). -/
theorem firstNulLen_pos (bs : List Nat) (cl : Nat) (h : firstNulLen bs = some cl) : 0 < cl := by
  induction bs generalizing cl with
  | nil => simp [firstNulLen] at h
  | cons b t ih =>
    unfold firstNulLen at h
    by_cases hb : b = 0
    · rw [if_pos hb] at h
      simp at h
      omega
    · rw [if_neg hb] at h
      rcases Option.map_eq_some'.mp h with ⟨m, hm, hmc⟩
      have hmc' : m + 1 = cl := hmc
      omega

/-- C10: `wasm_memory_c_format_hello_world` returns null (`0`) unless the
nul-terminated length of the input buffer — the number of bytes up to and
including the first zero byte — equals exactly the size recorded in the
allocation table: an unregistered handle is rejected, and a terminated input
whose nul length differs from the recorded size (an embedded early zero byte,
or a terminator that is not the last allocated byte) is rejected with the
state unchanged — never partially processed.  When the nul length matches
exactly, the adapter returns a nonzero handle if the bytes before the
terminator are valid UTF-8, and otherwise panics at `c_str.to_str().unwrap()`
(module 1, line 78) — a trap, not a returned null. -/
theorem c_format_nul_length_gate (st : GuestState) (name : Nat) :
    (lookupTable st.table name = none →
        wasm_memory_c_format_hello_world st name = .ok (0, st)) ∧
    (∀ (b : Buffer) (cl : Nat), lookupTable st.table name = some b →
        firstNulLen b.data = some cl → cl ≠ b.size →
        wasm_memory_c_format_hello_world st name = .ok (0, st)) ∧
    (∀ (b : Buffer) (cl : Nat), 0 < st.next → lookupTable st.table name = some b →
        firstNulLen b.data = some cl → cl = b.size →
        isValidUtf8 (b.data.take (cl - 1)) = true →
        ∃ (p : Nat) (st1 : GuestState),
          wasm_memory_c_format_hello_world st name = .ok (p, st1) ∧ p ≠ 0) ∧
    (∀ (b : Buffer) (cl : Nat), lookupTable st.table name = some b →
        firstNulLen b.data = some cl → cl = b.size →
        isValidUtf8 (b.data.take (cl - 1)) = false →
        wasm_memory_c_format_hello_world st name = .error "invalid utf-8 sequence") := by
  refine ⟨?_, ?_, ?_, ?_⟩
  · intro hlook
    unfold wasm_memory_c_format_hello_world validate_pointer
    rw [hlook]
    rfl
  · intro b cl hlook hnul hne
    unfold wasm_memory_c_format_hello_world validate_pointer
    rw [hlook]
    simp only []
    by_cases hz : b.size = 0
    · rw [if_pos hz]
    · rw [if_neg hz, hnul]
      simp only [if_pos hne]
  · intro b cl hn hlook hnul heq hu
    unfold wasm_memory_c_format_hello_world validate_pointer
    rw [hlook]
    simp only []
    have hcl : 0 < cl := firstNulLen_pos b.data cl hnul
    have hz : b.size ≠ 0 := by omega
    rw [if_neg hz, hnul]
    simp only [if_neg (by omega : ¬ cl ≠ b.size)]
    rw [if_pos hu]
    exact ⟨st.next, _, rfl, Nat.pos_iff_ne_zero.mp hn⟩
  · intro b cl hlook hnul heq hu
    unfold wasm_memory_c_format_hello_world validate_pointer
    rw [hlook]
    simp only []
    have hcl : 0 < cl := firstNulLen_pos b.data cl hnul
    have hz : b.size ≠ 0 := by omega
    rw [if_neg hz, hnul]
    simp only [if_neg (by omega : ¬ cl ≠ b.size)]
    rw [if_neg (by simp [hu])]

/-- Witness for C10: a buffer `[65, 0, 66]` registered with size `3` has nul
length `2 ≠ 3` and is rejected; the same bytes with the terminator last
(`[65, 66, 0]`, valid UTF-8) are accepted with a nonzero result handle; the
buffer `[255, 0]` registered with size `2` has a matching nul length but
invalid UTF-8 content, so the adapter traps instead of returning. -/
theorem c_format_nul_length_gate_witness :
    wasm_memory_c_format_hello_world ⟨[(4, ⟨3, [65, 0, 66]⟩)], 8⟩ 4
      = .ok (0, ⟨[(4, ⟨3, [65, 0, 66]⟩)], 8⟩) ∧
    (∃ (p : Nat) (st1 : GuestState),
      wasm_memory_c_format_hello_world ⟨[(4, ⟨3, [65, 66, 0]⟩)], 8⟩ 4
        = .ok (p, st1) ∧ p ≠ 0) ∧
    wasm_memory_c_format_hello_world ⟨[(4, ⟨2, [255, 0]⟩)], 8⟩ 4
      = .error "invalid utf-8 sequence" :=
  ⟨(c_format_nul_length_gate ⟨[(4, ⟨3, [65, 0, 66]⟩)], 8⟩ 4).2.1 ⟨3, [65, 0, 66]⟩ 2
      (by decide) (by decide) (by decide),
   (c_format_nul_length_gate ⟨[(4, ⟨3, [65, 66, 0]⟩)], 8⟩ 4).2.2.1 ⟨3, [65, 66, 0]⟩ 3
      (by decide) (by decide) (by decide) (by decide) (by decide),
   (c_format_nul_length_gate ⟨[(4, ⟨2, [255, 0]⟩)], 8⟩ 4).2.2.2 ⟨2, [255, 0]⟩ 2
      (by decide) (by decide) (by decide) (by decide)⟩

/-! ## Claim C6: the packed `[result_ptr][result_len]` metadata layout -/

/-- C6: on every successful pattern-(b) or pattern-(c) invocation the returned
handle is nonzero and points at a metadata buffer whose registered size is
exactly twice the native pointer width and whose bytes are exactly the two
consecutive little-endian pointer-width words `[result_ptr][result_len]`,
where `result_ptr` is a registered result buffer of recorded size (and byte
length) `result_len`; for the pattern-(c) adapter the result buffer holds the
serialized result batch. -/
theorem take_first_of_length (a b : List Nat) (w : Nat) (ha : a.length = w) :
    (a ++ b).take w = a := by
  subst ha
  exact take_length_append a b

theorem drop_take_second_of_length (a b : List Nat) (w : Nat)
    (ha : a.length = w) (hb : b.length = w) :
    ((a ++ b).drop w).take w = b := by
  subst ha
  rw [List.drop_left]
  exact List.take_of_length_le (by omega)

theorem packed_metadata_layout :
    (∀ (st : GuestState) (offset length mp : Nat) (st' : GuestState) (rds : List (List Nat)),
        0 < st.next → validate_pointer st offset = length → length ≠ 0 →
        wasm_memory_rust_format_hello_world st offset length = (mp, st', rds) →
        mp ≠ 0 ∧
        ∃ (rp rl : Nat) (rb : Buffer),
          lookupTable st'.table mp
            = some ⟨2 * usizeBytes, toLe usizeBytes rp ++ toLe usizeBytes rl⟩ ∧
          readMem st' mp usizeBytes = some (toLe usizeBytes rp) ∧
          readMem st' (mp + usizeBytes) usizeBytes = some (toLe usizeBytes rl) ∧
          lookupTable st'.table rp = some rb ∧ rb.size = rl ∧ rb.data.length = rl) ∧
    (∀ (dec : List Nat → Except String (List ArrowBatchModel))
        (enc : ArrowBatchModel → List Nat) (st : GuestState)
        (mOff mSize dOff dSize mp : Nat) (st' : GuestState) (rds : List (List Nat)),
        0 < st.next →
        wasm_memory_process_data_arrow dec enc st mOff mSize dOff dSize
          = .ok (mp, st', rds) →
        mp ≠ 0 →
        ∃ (rp rl : Nat) (rb : Buffer),
          lookupTable st'.table mp
            = some ⟨2 * usizeBytes, toLe usizeBytes rp ++ toLe usizeBytes rl⟩ ∧
          readMem st' mp usizeBytes = some (toLe usizeBytes rp) ∧
          readMem st' (mp + usizeBytes) usizeBytes = some (toLe usizeBytes rl) ∧
          lookupTable st'.table rp = some rb ∧ rb.size = rl ∧
          rb.data = enc moduleResultBatch ∧ rb.data.length = rl) := by
  constructor
  · intro st offset length mp st' rds hn hv hl heq
    unfold wasm_memory_rust_format_hello_world at heq
    rw [hv] at heq
    rw [if_neg (by omega)] at heq
    simp only [allocate] at heq
    generalize hinp : (readMem st offset length).getD [] = inp at heq
    simp only [Prod.mk.injEq] at heq
    obtain ⟨h1, h2, h3⟩ := heq
    subst h1 h2 h3
    have hmeta : (toLe usizeBytes st.next ++ toLe usizeBytes (helloBytes inp).length).length
        = 2 * usizeBytes := by
      simp [toLe_length]
      omega
    have htake : (toLe usizeBytes st.next
          ++ toLe usizeBytes (helloBytes inp).length).take usizeBytes
        = toLe usizeBytes st.next :=
      take_first_of_length _ _ _ (toLe_length _ _)
    have hdrop : ((toLe usizeBytes st.next
          ++ toLe usizeBytes (helloBytes inp).length).drop usizeBytes).take usizeBytes
        = toLe usizeBytes (helloBytes inp).length :=
      drop_take_second_of_length _ _ _ (toLe_length _ _) (toLe_length _ _)
    refine ⟨by omega, st.next, (helloBytes inp).length, ⟨(helloBytes inp).length, helloBytes inp⟩,
      ?_, ?_, ?_, ?_, rfl, rfl⟩
    · rw [lookupTable_cons_self, hmeta]
    · rw [readMem_cons_hit _ _ _ _ _ (by simp [inRange, toLe_length, usizeBytes])]
      rw [Nat.sub_self, List.drop_zero, htake]
    · rw [readMem_cons_hit _ _ _ _ _ (by simp [inRange, toLe_length, usizeBytes])]
      rw [Nat.add_sub_cancel_left, hdrop]
    · rw [lookupTable_cons_ne _ _ _ _ (by omega), lookupTable_cons_self]
  · intro dec enc st mOff mSize dOff dSize mp st' rds hn heq hmp
    simp only [wasm_memory_process_data_arrow] at heq
    split at heq
    · simp only [Except.ok.injEq, Prod.mk.injEq] at heq
      exact absurd heq.1.symm hmp
    · split at heq
      · simp only [Except.ok.injEq, Prod.mk.injEq] at heq
        exact absurd heq.1.symm hmp
      · rcases hdm : dec ((readMem st mOff mSize).getD []) with e | mbs
        · rw [hdm] at heq
          simp only [exceptBind_error] at heq
          exact absurd heq (by simp)
        · rw [hdm] at heq
          simp only [exceptBind_ok] at heq
          rcases hcm : runChecks checkMetaBatch mbs with e | u
          · rw [hcm] at heq
            simp only [exceptBind_error] at heq
            exact absurd heq (by simp)
          · rw [hcm] at heq
            simp only [exceptBind_ok] at heq
            rcases hdd : dec ((readMem st dOff dSize).getD []) with e | dbs
            · rw [hdd] at heq
              simp only [exceptBind_error] at heq
              exact absurd heq (by simp)
            · rw [hdd] at heq
              simp only [exceptBind_ok] at heq
              rcases hcd : runChecks checkDataBatch dbs with e | u2
              · rw [hcd] at heq
                simp only [exceptBind_error] at heq
                exact absurd heq (by simp)
              · rw [hcd] at heq
                simp only [exceptBind_ok, allocate, Except.ok.injEq, Prod.mk.injEq] at heq
                obtain ⟨h1, h2, h3⟩ := heq
                subst h1 h2 h3
                have hmeta : (toLe usizeBytes st.next
                      ++ toLe usizeBytes (enc moduleResultBatch).length).length
                    = 2 * usizeBytes := by
                  simp [toLe_length]
                  omega
                have htake : (toLe usizeBytes st.next
                      ++ toLe usizeBytes (enc moduleResultBatch).length).take usizeBytes
                    = toLe usizeBytes st.next :=
                  take_first_of_length _ _ _ (toLe_length _ _)
                have hdrop : ((toLe usizeBytes st.next
                      ++ toLe usizeBytes (enc moduleResultBatch).length).drop
                        usizeBytes).take usizeBytes
                    = toLe usizeBytes (enc moduleResultBatch).length :=
                  drop_take_second_of_length _ _ _ (toLe_length _ _) (toLe_length _ _)
                refine ⟨st.next, (enc moduleResultBatch).length,
                  ⟨(enc moduleResultBatch).length, enc moduleResultBatch⟩,
                  ?_, ?_, ?_, ?_, rfl, rfl, rfl⟩
                · rw [lookupTable_cons_self, hmeta]
                · rw [readMem_cons_hit _ _ _ _ _ (by simp [inRange, toLe_length, usizeBytes])]
                  rw [Nat.sub_self, List.drop_zero, htake]
                · rw [readMem_cons_hit _ _ _ _ _ (by simp [inRange, toLe_length, usizeBytes])]
                  rw [Nat.add_sub_cancel_left, hdrop]
                · rw [lookupTable_cons_ne _ _ _ _ (by omega), lookupTable_cons_self]

/-- Witness for C6: the pattern-(b) adapter at a concrete registered buffer
leaves a metadata buffer of size `8` holding the two packed words. -/
theorem packed_metadata_layout_witness :
    ∃ (rp rl : Nat) (rb : Buffer),
      lookupTable ((wasm_memory_rust_format_hello_world ⟨[(1, ⟨2, [65, 66]⟩)], 4⟩ 1 2).2.1).table
          (wasm_memory_rust_format_hello_world ⟨[(1, ⟨2, [65, 66]⟩)], 4⟩ 1 2).1
        = some ⟨2 * usizeBytes, toLe usizeBytes rp ++ toLe usizeBytes rl⟩ ∧
      readMem (wasm_memory_rust_format_hello_world ⟨[(1, ⟨2, [65, 66]⟩)], 4⟩ 1 2).2.1
          (wasm_memory_rust_format_hello_world ⟨[(1, ⟨2, [65, 66]⟩)], 4⟩ 1 2).1 usizeBytes
        = some (toLe usizeBytes rp) ∧
      readMem (wasm_memory_rust_format_hello_world ⟨[(1, ⟨2, [65, 66]⟩)], 4⟩ 1 2).2.1
          ((wasm_memory_rust_format_hello_world ⟨[(1, ⟨2, [65, 66]⟩)], 4⟩ 1 2).1 + usizeBytes)
          usizeBytes
        = some (toLe usizeBytes rl) ∧
      lookupTable ((wasm_memory_rust_format_hello_world ⟨[(1, ⟨2, [65, 66]⟩)], 4⟩ 1 2).2.1).table
          rp = some rb ∧ rb.size = rl ∧ rb.data.length = rl :=
  (packed_metadata_layout.1 ⟨[(1, ⟨2, [65, 66]⟩)], 4⟩ 1 2
      (wasm_memory_rust_format_hello_world ⟨[(1, ⟨2, [65, 66]⟩)], 4⟩ 1 2).1
      (wasm_memory_rust_format_hello_world ⟨[(1, ⟨2, [65, 66]⟩)], 4⟩ 1 2).2.1
      (wasm_memory_rust_format_hello_world ⟨[(1, ⟨2, [65, 66]⟩)], 4⟩ 1 2).2.2
      (by decide) (by decide) (by decide) rfl).2

end WasmStudy
